import Mathlib

/-!
Verification of the signal-fusion engine, backtest execution state machine and
trade-pairing performance reducer of the HUG_AI gold-strategy repository
(`gold_strategy.py`, `backtest_engine.py`, `config.py`).

Indicator values read from the bar table may be missing (NaN in pandas); such a
value is modelled as `none`, and every comparison against a missing value is
`false`, matching IEEE-754 comparison semantics used by the Python source.
Monetary amounts and prices are modelled as rationals.
-/

namespace HugAI

/-- Signal direction, mirroring `SignalType` in `gold_strategy.py`. -/
inductive SignalType where
  | buy
  | sell
  | hold
deriving DecidableEq, Repr

/-- One row of the indicator table: the bar fields the strategy reads.
A `none` field is a NaN / missing value. -/
structure Bar where
  close : Option ℚ
  maFast : Option ℚ
  maSlow : Option ℚ
  rsi : Option ℚ
  macd : Option ℚ
  macdSignal : Option ℚ
  bbUpper : Option ℚ
  bbMiddle : Option ℚ
  bbLower : Option ℚ
  volumeRat : Option ℚ
  priceChange : Option ℚ
  atr : Option ℚ
deriving DecidableEq, Repr

/-- The configuration constants consumed by the strategy and the engine
(`config.py`).  Field values of the shipped configuration are in `defCfg`. -/
structure Config where
  RSI_OVERSOLD : ℚ
  RSI_OVERBOUGHT : ℚ
  INITIAL_CAPITAL : ℚ
  COMMISSION_RATE : ℚ
  SLIPPAGE : ℚ
  POSITION_SIZE : ℚ
  STOP_LOSS_PCT : ℚ
  TAKE_PROFIT_PCT : ℚ
deriving DecidableEq, Repr

/-- The shipped configuration values from `config.py`. -/
def defCfg : Config :=
  { RSI_OVERSOLD := 30
    RSI_OVERBOUGHT := 70
    INITIAL_CAPITAL := 100000
    COMMISSION_RATE := 2/1000
    SLIPPAGE := 1/1000
    POSITION_SIZE := 95/100
    STOP_LOSS_PCT := 5/100
    TAKE_PROFIT_PCT := 10/100 }

/-- Comparison `a < b` on possibly-missing values: false when either side is
missing, as for float NaN in the source. -/
def olt : Option ℚ → Option ℚ → Bool
  | some a, some b => decide (a < b)
  | _, _ => false

/-- Comparison `a ≤ b` on possibly-missing values (false on missing). -/
def ole : Option ℚ → Option ℚ → Bool
  | some a, some b => decide (a ≤ b)
  | _, _ => false

/-- Comparison `a > b` on possibly-missing values (false on missing). -/
def ogt : Option ℚ → Option ℚ → Bool
  | some a, some b => decide (a > b)
  | _, _ => false

/-- Comparison `a ≥ b` on possibly-missing values (false on missing). -/
def oge : Option ℚ → Option ℚ → Bool
  | some a, some b => decide (a ≥ b)
  | _, _ => false

/-- `calculate_ma_crossover_signal`: BUY on a golden cross between bar `i-1`
and bar `i`, SELL on a death cross, confidence `min 0.8 (|fast-slow|/slow*100)`. -/
def maCrossoverSignal (data : List Bar) (i : ℕ) : SignalType × ℚ :=
  if i < 1 then (.hold, 0) else
  match data[i]?, data[i-1]? with
  | some cur, some prev =>
    if ole prev.maFast prev.maSlow ∧ ogt cur.maFast cur.maSlow then
      match cur.maFast, cur.maSlow with
      | some f, some s => (.buy, min (8/10) (|f - s| / s * 100))
      | _, _ => (.hold, 0)
    else if oge prev.maFast prev.maSlow ∧ olt cur.maFast cur.maSlow then
      match cur.maFast, cur.maSlow with
      | some f, some s => (.sell, min (8/10) (|s - f| / s * 100))
      | _, _ => (.hold, 0)
    else (.hold, 0)
  | _, _ => (.hold, 0)

/-- `calculate_rsi_signal`: BUY below the oversold threshold, SELL above the
overbought threshold, confidence scaled by the depth beyond the threshold. -/
def rsiSignal (cfg : Config) (data : List Bar) (i : ℕ) : SignalType × ℚ :=
  match data[i]? with
  | some bar =>
    match bar.rsi with
    | none => (.hold, 0)
    | some rsi =>
      if rsi < cfg.RSI_OVERSOLD then
        (.buy, (cfg.RSI_OVERSOLD - rsi) / cfg.RSI_OVERSOLD)
      else if rsi > cfg.RSI_OVERBOUGHT then
        (.sell, (rsi - cfg.RSI_OVERBOUGHT) / (100 - cfg.RSI_OVERBOUGHT))
      else (.hold, 0)
  | none => (.hold, 0)

/-- `calculate_macd_signal`: BUY/SELL when the MACD line crosses its signal
line, confidence `min 0.7 (|macd-sig|/|sig|)` with a `0.5` fallback when the
signal line is exactly zero. -/
def macdCrossSignal (data : List Bar) (i : ℕ) : SignalType × ℚ :=
  if i < 1 then (.hold, 0) else
  match data[i]?, data[i-1]? with
  | some cur, some prev =>
    match cur.macd, cur.macdSignal with
    | some m, some sg =>
      if ole prev.macd prev.macdSignal ∧ m > sg then
        (.buy, min (7/10) (if sg ≠ 0 then |m - sg| / |sg| else 1/2))
      else if oge prev.macd prev.macdSignal ∧ m < sg then
        (.sell, min (7/10) (if sg ≠ 0 then |sg - m| / |sg| else 1/2))
      else (.hold, 0)
    | _, _ => (.hold, 0)
  | _, _ => (.hold, 0)

/-- `calculate_bollinger_signal`: BUY when the close touches the lower band,
SELL at the upper band, confidence scaled by penetration depth, capped 0.6. -/
def bollingerSignal (data : List Bar) (i : ℕ) : SignalType × ℚ :=
  match data[i]? with
  | some bar =>
    match bar.bbUpper, bar.bbLower with
    | some up, some lo =>
      match bar.close with
      | some price =>
        if price ≤ lo then (.buy, min (6/10) ((lo - price) / lo * 10))
        else if price ≥ up then (.sell, min (6/10) ((price - up) / up * 10))
        else (.hold, 0)
      | none => (.hold, 0)
    | _, _ => (.hold, 0)
  | none => (.hold, 0)

/-- `calculate_volume_signal`: BUY/SELL on volume breakout (ratio > 1.5 and
same-bar price change beyond ±1%), confidence capped at 0.5. -/
def volumeSignal (data : List Bar) (i : ℕ) : SignalType × ℚ :=
  match data[i]? with
  | some bar =>
    match bar.volumeRat, bar.priceChange with
    | some vr, some pc =>
      if vr > 3/2 ∧ pc > 1/100 then (.buy, min (1/2) (vr / 3 * |pc| * 10))
      else if vr > 3/2 ∧ pc < -(1/100) then (.sell, min (1/2) (vr / 3 * |pc| * 10))
      else (.hold, 0)
    | _, _ => (.hold, 0)
  | none => (.hold, 0)

/-- The final-signal decision of the fusion step: the winning score must
exceed the other score and the 0.18 threshold, otherwise HOLD with zero
confidence. -/
def fuseDecision (buyScore sellScore : ℚ) : SignalType × ℚ :=
  if buyScore > sellScore ∧ buyScore > 18/100 then (.buy, buyScore)
  else if sellScore > buyScore ∧ sellScore > 18/100 then (.sell, sellScore)
  else (.hold, 0)

/-- The weighted fusion step of `generate_composite_signal`, before the trend
filter.  The source zips the signal list `[ma, rsi, macd, bb, vol]` against
`list(weights.values())` which is `[0.35, 0.25, 0.20, 0.15, 0.05]` (dict
insertion order `ma, macd, rsi, bb, volume`), so the weight actually applied
to the RSI sub-signal is 0.25 and to the MACD sub-signal 0.20. -/
def fusedPreFilter (cfg : Config) (data : List Bar) (i : ℕ) : SignalType × ℚ :=
  let ma := maCrossoverSignal data i
  let rsi := rsiSignal cfg data i
  let macd := macdCrossSignal data i
  let bb := bollingerSignal data i
  let vol := volumeSignal data i
  let pairs : List ((SignalType × ℚ) × ℚ) :=
    [(ma, 35/100), (rsi, 25/100), (macd, 20/100), (bb, 15/100), (vol, 5/100)]
  let scores := pairs.foldl
    (fun acc p =>
      match p.1.1 with
      | .buy => (acc.1 + p.1.2 * p.2, acc.2)
      | .sell => (acc.1, acc.2 + p.1.2 * p.2)
      | .hold => acc) ((0 : ℚ), (0 : ℚ))
  fuseDecision scores.1 scores.2

/-- The relative MA gap `abs(fast - slow) / price if price != 0 else 0` used
by the trend filter; missing when any needed value is NaN (and the price is
nonzero, since NaN compares unequal to zero in the source). -/
def maGapPct (fast slow price : Option ℚ) : Option ℚ :=
  match price with
  | some p =>
    if p ≠ 0 then
      match fast, slow with
      | some f, some s => some (|f - s| / p)
      | _, _ => none
    else some 0
  | none => none

/-- The long-side trend-confirmation condition of `generate_composite_signal`:
fast MA above slow MA, MACD line positive, MA gap at least 0.1% of the close,
and close at or above the Bollinger mid-band. -/
def buyTrendOk (bar : Bar) : Bool :=
  ogt bar.maFast bar.maSlow && ogt bar.macd (some 0) &&
    oge (maGapPct bar.maFast bar.maSlow bar.close) (some (1/1000)) &&
    oge bar.close bar.bbMiddle

/-- The short-side trend-confirmation condition (mirror of `buyTrendOk`). -/
def sellTrendOk (bar : Bar) : Bool :=
  olt bar.maFast bar.maSlow && olt bar.macd (some 0) &&
    oge (maGapPct bar.maFast bar.maSlow bar.close) (some (1/1000)) &&
    ole bar.close bar.bbMiddle

/-- The composite signal delivered for one bar (`TradingSignal` restricted to
the fields the engine consumes). -/
structure CompositeSignal where
  signalType : SignalType
  price : Option ℚ
  confidence : ℚ
deriving DecidableEq, Repr

/-- `generate_composite_signal`: weighted fusion of the five sub-signals
followed by the trend-confirmation filter, which can only force a fused BUY
or SELL down to HOLD with zero confidence. -/
def generateCompositeSignal (cfg : Config) (data : List Bar) (i : ℕ) : CompositeSignal :=
  let fused := fusedPreFilter cfg data i
  match data[i]? with
  | some bar =>
    if fused.1 = SignalType.buy ∧ ¬ buyTrendOk bar then
      ⟨.hold, bar.close, 0⟩
    else if fused.1 = SignalType.sell ∧ ¬ sellTrendOk bar then
      ⟨.hold, bar.close, 0⟩
    else
      ⟨fused.1, bar.close, fused.2⟩
  | none => ⟨fused.1, none, fused.2⟩

/-- The percentage fallback of `calculate_atr_stop_loss`: stop and target a
fixed fraction away from the current bar close. -/
def pctStops (cfg : Config) (price : Option ℚ) (ptype : SignalType) : Option ℚ × Option ℚ :=
  match price with
  | some p =>
    if ptype = SignalType.buy then
      (some (p * (1 - cfg.STOP_LOSS_PCT)), some (p * (1 + cfg.TAKE_PROFIT_PCT)))
    else
      (some (p * (1 + cfg.STOP_LOSS_PCT)), some (p * (1 - cfg.TAKE_PROFIT_PCT)))
  | none => (none, none)

/-- `calculate_atr_stop_loss`: with fewer than 14 prior bars, or missing/zero
ATR, the percentage fallback; otherwise stop and target 1.5·ATR resp. 2.5·ATR
away from the current bar close (the entry price plays no role). -/
def calculateAtrStopLoss (cfg : Config) (data : List Bar) (i : ℕ)
    (ptype : SignalType) : Option ℚ × Option ℚ :=
  if i < 14 then
    pctStops cfg ((data[i]?).bind Bar.close) ptype
  else
    match (data[i]?).bind Bar.atr with
    | none => pctStops cfg ((data[i]?).bind Bar.close) ptype
    | some a =>
      if a = 0 then pctStops cfg ((data[i]?).bind Bar.close) ptype
      else
        match (data[i]?).bind Bar.close with
        | some p =>
          if ptype = SignalType.buy then
            (some (p - a * (3/2)), some (p + a * (5/2)))
          else
            (some (p + a * (3/2)), some (p - a * (5/2)))
        | none => (none, none)

/-- Why `should_exit_position` answered the way it did. -/
inductive ExitReason where
  | stopLoss
  | takeProfit
  | reversal
  | noExit
deriving DecidableEq, Repr

/-- `should_exit_position`: stop-loss check, then take-profit check against
the ATR/percentage levels, then reversal check against a freshly recomputed
composite signal.  The `entry` argument is received but never read by the
source, which is preserved here. -/
def shouldExitPosition (cfg : Config) (data : List Bar) (i : ℕ) (entry : ℚ)
    (ptype : SignalType) : Bool × ExitReason :=
  let price := (data[i]?).bind Bar.close
  let sl := (calculateAtrStopLoss cfg data i ptype).1
  let tp := (calculateAtrStopLoss cfg data i ptype).2
  if ptype = SignalType.buy ∧ ole price sl = true then (true, .stopLoss)
  else if ptype = SignalType.sell ∧ oge price sl = true then (true, .stopLoss)
  else if ptype = SignalType.buy ∧ oge price tp = true then (true, .takeProfit)
  else if ptype = SignalType.sell ∧ ole price tp = true then (true, .takeProfit)
  else
    let signal := generateCompositeSignal cfg data i
    if (ptype = SignalType.buy ∧ signal.signalType = SignalType.sell) ∨
       (ptype = SignalType.sell ∧ signal.signalType = SignalType.buy) then
      (true, .reversal)
    else (false, .noExit)

/-- Python `int()` applied to a rational: truncation toward zero. -/
def pyInt (x : ℚ) : ℤ := if x < 0 then ⌈x⌉ else ⌊x⌋

/-- The order actions of the execution ledger. -/
inductive Action where
  | buy
  | sell
  | sellShort
  | buyToCover
deriving DecidableEq, Repr

/-- A trade instruction handed to `execute_trade` (the trade dict of the
source, restricted to the consumed fields; timestamps are bar indices). -/
structure TradeCmd where
  ts : ℕ
  action : Action
  price : ℚ
  quantity : ℤ
  confidence : ℚ
deriving DecidableEq, Repr

/-- A recorded trade: the source stores the executed quantity plus a `cost`
key (BUY, BUY_TO_COVER) or a `revenue` key (SELL, SELL_SHORT). -/
structure TradeRecord where
  ts : ℕ
  action : Action
  price : ℚ
  quantity : ℤ
  cost : Option ℚ
  revenue : Option ℚ
deriving DecidableEq, Repr

/-- One equity-curve sample appended by `update_equity`. -/
structure EquitySample where
  ts : ℕ
  equity : ℚ
  cash : ℚ
  positionVal : ℚ
  positionSize : ℤ
  price : ℚ
deriving DecidableEq, Repr

/-- The mutable simulation state of `BacktestEngine`. -/
structure EngineState where
  availableCash : ℚ
  currentCapital : ℚ
  currentPosition : ℤ
  positionValue : ℚ
  entryPrice : ℚ
  entryTime : Option ℕ
  tradesHistory : List TradeRecord
  equityHistory : List EquitySample
deriving DecidableEq, Repr

/-- `BacktestEngine.calculate_position_size`: confidence-weighted capital
fraction, capped by the ATR risk fraction when a positive ATR is available,
converted to a unit count net of commission and slippage, floored at 1. -/
def calculatePositionSize (cfg : Config) (s : EngineState) (price : ℚ)
    (confidence : ℚ) (atr : Option ℚ) : ℤ :=
  let adjusted := cfg.POSITION_SIZE * confidence
  let maxFrac :=
    match atr with
    | some a =>
      if a > 0 then
        let riskAmount := s.currentCapital * (1/100)
        let stopDistance := (3/2) * a
        let positionByRisk := riskAmount / (stopDistance * price)
        min adjusted (positionByRisk * price / s.availableCash)
      else adjusted
    | none => adjusted
  let availableForPosition := s.availableCash * maxFrac
  let cnt := pyInt (availableForPosition / (price * (1 + cfg.COMMISSION_RATE + cfg.SLIPPAGE)))
  max 1 cnt

/-- `BacktestEngine.execute_trade`: BUY is rejected when its cost exceeds the
available cash; SELL and BUY_TO_COVER clamp the quantity to the held
position and reset the entry fields when the position reaches zero;
SELL_SHORT always executes and credits the short-sale proceeds. -/
def executeTrade (cfg : Config) (s : EngineState) (cmd : TradeCmd)
    (atr : Option ℚ) : EngineState :=
  match cmd.action with
  | .buy =>
    let quantity := calculatePositionSize cfg s cmd.price cmd.confidence atr
    let cost := (quantity : ℚ) * cmd.price * (1 + cfg.COMMISSION_RATE + cfg.SLIPPAGE)
    if cost ≤ s.availableCash then
      let newPosition := s.currentPosition + quantity
      let avgPrice :=
        if newPosition > 0 then
          (s.entryPrice * (s.currentPosition : ℚ) + cmd.price * (quantity : ℚ)) / (newPosition : ℚ)
        else cmd.price
      { s with
        currentPosition := newPosition
        entryPrice := avgPrice
        entryTime := some cmd.ts
        availableCash := s.availableCash - cost
        positionValue := (newPosition : ℚ) * cmd.price
        tradesHistory := s.tradesHistory ++ [⟨cmd.ts, .buy, cmd.price, quantity, some cost, none⟩] }
    else s
  | .sell =>
    let quantity := min cmd.quantity s.currentPosition
    if quantity > 0 then
      let revenue := (quantity : ℚ) * cmd.price * (1 - cfg.COMMISSION_RATE - cfg.SLIPPAGE)
      let newPosition := s.currentPosition - quantity
      { s with
        currentPosition := newPosition
        availableCash := s.availableCash + revenue
        positionValue := (newPosition : ℚ) * cmd.price
        entryPrice := if newPosition = 0 then 0 else s.entryPrice
        entryTime := if newPosition = 0 then none else s.entryTime
        tradesHistory := s.tradesHistory ++ [⟨cmd.ts, .sell, cmd.price, quantity, none, some revenue⟩] }
    else s
  | .sellShort =>
    let quantity := calculatePositionSize cfg s cmd.price cmd.confidence atr
    let revenue := (quantity : ℚ) * cmd.price * (1 - cfg.COMMISSION_RATE - cfg.SLIPPAGE)
    let newPosition := s.currentPosition - quantity
    let avgPrice :=
      if newPosition < 0 then
        (|s.entryPrice * (s.currentPosition : ℚ)| + cmd.price * (quantity : ℚ)) / |(newPosition : ℚ)|
      else cmd.price
    { s with
      currentPosition := newPosition
      entryPrice := avgPrice
      entryTime := some cmd.ts
      availableCash := s.availableCash + revenue
      positionValue := |(newPosition : ℚ)| * cmd.price
      tradesHistory := s.tradesHistory ++ [⟨cmd.ts, .sellShort, cmd.price, quantity, none, some revenue⟩] }
  | .buyToCover =>
    let quantity := min cmd.quantity |s.currentPosition|
    if quantity > 0 then
      let cost := (quantity : ℚ) * cmd.price * (1 + cfg.COMMISSION_RATE + cfg.SLIPPAGE)
      let newPosition := s.currentPosition + quantity
      { s with
        currentPosition := newPosition
        availableCash := s.availableCash - cost
        positionValue := |(newPosition : ℚ)| * cmd.price
        entryPrice := if newPosition = 0 then 0 else s.entryPrice
        entryTime := if newPosition = 0 then none else s.entryTime
        tradesHistory := s.tradesHistory ++ [⟨cmd.ts, .buyToCover, cmd.price, quantity, some cost, none⟩] }
    else s

/-- `BacktestEngine.update_equity`: mark the position to the bar close and
append one equity sample. -/
def updateEquity (s : EngineState) (ts : ℕ) (price : ℚ) : EngineState :=
  let pv := (s.currentPosition : ℚ) * price
  { s with
    positionValue := pv
    equityHistory := s.equityHistory ++ [⟨ts, s.availableCash + pv, s.availableCash, pv, s.currentPosition, price⟩] }

/-- The per-bar signal dispatch of `run_backtest`: BUY signal while not long
covers any short then buys; SELL signal while not short closes any long then
sells short; otherwise, with an open position, the exit check runs and a
triggered exit closes the full position. -/
def dispatchSignal (cfg : Config) (data : List Bar) (i : ℕ)
    (s : EngineState) : EngineState :=
  match data[i]? with
  | none => s
  | some bar =>
    let signal := generateCompositeSignal cfg data i
    let sigPrice := signal.price.getD 0
    if signal.signalType = SignalType.buy ∧ s.currentPosition ≤ 0 then
      let s1 :=
        if s.currentPosition < 0 then
          executeTrade cfg s ⟨i, .buyToCover, sigPrice, |s.currentPosition|, signal.confidence⟩ bar.atr
        else s
      executeTrade cfg s1 ⟨i, .buy, sigPrice, 1, signal.confidence⟩ bar.atr
    else if signal.signalType = SignalType.sell ∧ s.currentPosition ≥ 0 then
      let s1 :=
        if s.currentPosition > 0 then
          executeTrade cfg s ⟨i, .sell, sigPrice, s.currentPosition, signal.confidence⟩ bar.atr
        else s
      executeTrade cfg s1 ⟨i, .sellShort, sigPrice, 1, signal.confidence⟩ bar.atr
    else if s.currentPosition ≠ 0 then
      let verdict := shouldExitPosition cfg data i s.entryPrice
        (if s.currentPosition > 0 then SignalType.buy else SignalType.sell)
      if verdict.1 then
        executeTrade cfg s
          ⟨i, (if s.currentPosition > 0 then Action.sell else Action.buyToCover),
            sigPrice, |s.currentPosition|, signal.confidence⟩ bar.atr
      else s
    else s

/-- One full bar of `run_backtest`: signal dispatch followed by the equity
update at the bar close. -/
def runBar (cfg : Config) (data : List Bar) (i : ℕ) (s : EngineState) : EngineState :=
  match data[i]? with
  | none => s
  | some bar => updateEquity (dispatchSignal cfg data i s) i (bar.close.getD 0)

/-- The reset state at the start of `run_backtest`. -/
def initState (cfg : Config) : EngineState :=
  { availableCash := cfg.INITIAL_CAPITAL
    currentCapital := cfg.INITIAL_CAPITAL
    currentPosition := 0
    positionValue := 0
    entryPrice := 0
    entryTime := none
    tradesHistory := []
    equityHistory := [] }

/-- The engine state after the first `n` bars of `run_backtest`. -/
def runSteps (cfg : Config) (data : List Bar) : ℕ → EngineState
  | 0 => initState cfg
  | n + 1 => runBar cfg data n (runSteps cfg data n)

/-- The signed position contribution of one recorded trade: BUY and
BUY_TO_COVER add their executed quantity, SELL and SELL_SHORT subtract it. -/
def tradeDelta (t : TradeRecord) : ℤ :=
  match t.action with
  | .buy => t.quantity
  | .buyToCover => t.quantity
  | .sell => -t.quantity
  | .sellShort => -t.quantity

/-- Net signed sum of the executed quantities of a trade list. -/
def signedSum (ts : List TradeRecord) : ℤ := (ts.map tradeDelta).sum

/-- The opening action a closing trade is paired against in
`_generate_result` (none for a trade that is not a closing trade). -/
def openActionFor : Action → Option Action
  | .sell => some Action.buy
  | .buyToCover => some Action.sellShort
  | _ => none

/-- Index of the most recent yet-unmatched opening trade of the wanted action
strictly before position `i` of the trade list. -/
def findLastOpen (trades : List TradeRecord) (openAct : Action)
    (matched : List ℕ) (i : ℕ) : Option ℕ :=
  ((List.range i).filter (fun j =>
    (match trades[j]? with
     | some t => decide (t.action = openAct)
     | none => false) && !(matched.contains j))).getLast?

/-- The round-trip pairing loop of `_generate_result`: walk the closing
trades in order, match each to the most recent unmatched opening trade, mark
it matched, and emit the pair's P&L amount and P&L ratio. -/
def pairTradesAux (trades : List TradeRecord) : List ℕ → List ℕ → List (ℚ × ℚ)
  | [], _ => []
  | i :: rest, matched =>
    match trades[i]? with
    | none => pairTradesAux trades rest matched
    | some t =>
      match openActionFor t.action with
      | none => pairTradesAux trades rest matched
      | some openAct =>
        match findLastOpen trades openAct matched i with
        | none => pairTradesAux trades rest matched
        | some j =>
          match trades[j]? with
          | none => pairTradesAux trades rest (j :: matched)
          | some o =>
            let qty := min t.quantity o.quantity
            if qty ≤ 0 then pairTradesAux trades rest (j :: matched)
            else
              let openCost :=
                match o.cost with
                | some c => if c = 0 then o.price * (qty : ℚ) else c
                | none => o.price * (qty : ℚ)
              let closeValue :=
                match t.revenue with
                | some r => if r = 0 then t.price * (qty : ℚ) else r
                | none => t.price * (qty : ℚ)
              let pnl := if t.action = Action.sell then closeValue - openCost else openCost - closeValue
              let pnlRat := if openCost ≠ 0 then pnl / openCost else 0
              (pnl, pnlRat) :: pairTradesAux trades rest (j :: matched)

/-- The P&L pairs (amount, ratio) produced by one pass of the reducer. -/
def pairTrades (trades : List TradeRecord) : List (ℚ × ℚ) :=
  pairTradesAux trades (List.range trades.length) []

/-- The winning/losing gross-amount accumulation of `_generate_result`: a
pair whose P&L ratio is positive adds its amount to the winning total,
every other pair adds its amount to the losing total. -/
def aggregateAmounts (pairs : List (ℚ × ℚ)) : ℚ × ℚ :=
  pairs.foldl
    (fun acc p => if p.2 > 0 then (acc.1 + p.1, acc.2) else (acc.1, acc.2 + p.1))
    ((0 : ℚ), (0 : ℚ))

/-- The profit-factor value: a finite quotient, or the infinity sentinel
(`float('inf')` in the source) when there are no losses. -/
inductive ProfitFactor where
  | val (q : ℚ)
  | infSentinel
deriving DecidableEq, Repr

/-- The profit factor reported by `_generate_result`:
`abs(winning_amount / losing_amount)` when the losing total is negative,
otherwise the infinity sentinel. -/
def profitFactor (trades : List TradeRecord) : ProfitFactor :=
  let totals := aggregateAmounts (pairTrades trades)
  if totals.2 < 0 then .val |totals.1 / totals.2| else .infSentinel

/-- The final capital fraction exactly as the specification words it for the
risk-sizing module: the confidence-weighted fraction, capped by the ATR
risk fraction of available cash when a positive ATR is available. -/
def specFinalFrac (cfg : Config) (s : EngineState) (price confidence : ℚ)
    (atr : Option ℚ) : ℚ :=
  match atr with
  | some a =>
    if a > 0 then
      min (cfg.POSITION_SIZE * confidence)
        ((s.currentCapital * (1/100)) / ((3/2) * a * price) * price / s.availableCash)
    else cfg.POSITION_SIZE * confidence
  | none => cfg.POSITION_SIZE * confidence

/-- The weighted vote score exactly as the specification words it for the
fusion step: each sub-signal voting `dir` contributes confidence times its
named weight, MA 0.35, MACD 0.25, RSI 0.20, Bollinger 0.15, Volume 0.05. -/
def claimWeightedScore (dir : SignalType) (ma macd rsi bb vol : SignalType × ℚ) : ℚ :=
  (if ma.1 = dir then ma.2 * (35/100) else 0) +
  (if macd.1 = dir then macd.2 * (25/100) else 0) +
  (if rsi.1 = dir then rsi.2 * (20/100) else 0) +
  (if bb.1 = dir then bb.2 * (15/100) else 0) +
  (if vol.1 = dir then vol.2 * (5/100) else 0)

/-- A quiet bar whose indicator values make every sub-signal HOLD. -/
def holdBar (c : ℚ) : Bar :=
  { close := some c
    maFast := some 100
    maSlow := some 100
    rsi := some 50
    macd := some 0
    macdSignal := some 0
    bbUpper := some 200
    bbMiddle := some 100
    bbLower := some 50
    volumeRat := some 1
    priceChange := some 0
    atr := some 2 }

/-- Sixteen quiet bars with ATR 2; the last bar closes at 96.9 while a long
position entered at 100 is open. -/
def dataAtrExit : List Bar := List.replicate 15 (holdBar 100) ++ [holdBar (969/10)]

/-- A bar where only the RSI sub-signal votes (BUY with confidence 1) and the
long trend filter passes. -/
def rsiOnlyBar : Bar :=
  { close := some 100
    maFast := some 101
    maSlow := some 100
    rsi := some 0
    macd := some 1
    macdSignal := some 1
    bbUpper := some 200
    bbMiddle := some 100
    bbLower := some 50
    volumeRat := some 1
    priceChange := some 0
    atr := some 2 }

/-- Two identical RSI-vote bars (index 1 is the bar under test). -/
def dataRsiOnly : List Bar := [rsiOnlyBar, rsiOnlyBar]

/-- Bar 0 of the golden-cross scenario: fast MA still below slow MA. -/
def crossBar0 : Bar :=
  { close := some 100
    maFast := some 99
    maSlow := some 100
    rsi := some 50
    macd := some 1
    macdSignal := some 1
    bbUpper := some 200
    bbMiddle := some 100
    bbLower := some 50
    volumeRat := some 1
    priceChange := some 0
    atr := some 2 }

/-- Bar 1 of the golden-cross scenario: fast MA crossed above the slow MA
with positive MACD, 2% MA gap and close on the Bollinger mid-band. -/
def crossBar1 : Bar := { crossBar0 with maFast := some 102 }

/-- Golden-cross data satisfying every long trend-filter condition at bar 1. -/
def dataCross : List Bar := [crossBar0, crossBar1]

/-- The same golden-cross data with the MACD line forced negative on both
bars (no MACD crossover is introduced). -/
def dataCrossNegMacd : List Bar :=
  [{ crossBar0 with macd := some (-1) }, { crossBar1 with macd := some (-1) }]

/-- An account state with no cash at all. -/
def zeroCashState : EngineState :=
  { availableCash := 0
    currentCapital := 100000
    currentPosition := 0
    positionValue := 0
    entryPrice := 0
    entryTime := none
    tradesHistory := []
    equityHistory := [] }

/-- A short-sale order at price 100 with full confidence. -/
def shortCmd : TradeCmd := ⟨0, .sellShort, 100, 1, 1⟩

/-- An account long 10 units entered at 100. -/
def longState : EngineState :=
  { availableCash := 1000
    currentCapital := 100000
    currentPosition := 10
    positionValue := 1000
    entryPrice := 100
    entryTime := some 0
    tradesHistory := []
    equityHistory := [] }

/-- An account short 10 units entered at 100. -/
def shortState : EngineState := { longState with currentPosition := -10 }

/-- Two long round-trips: one with gross win 300, one with gross loss 100. -/
def tradesWinLoss : List TradeRecord :=
  [⟨0, .buy, 100, 10, some 1000, none⟩,
   ⟨1, .sell, 130, 10, none, some 1300⟩,
   ⟨2, .buy, 100, 10, some 1000, none⟩,
   ⟨3, .sell, 90, 10, none, some 900⟩]

/-- A single winning round-trip: no losses at all. -/
def tradesNoLoss : List TradeRecord :=
  [⟨0, .buy, 100, 10, some 1000, none⟩,
   ⟨1, .sell, 130, 10, none, some 1300⟩]

/-- Python truncation agrees with the floor on nonnegative inputs. -/
theorem pyInt_eq_floor (x : ℚ) (hx : 0 ≤ x) : pyInt x = ⌊x⌋ := by
  unfold pyInt
  rw [if_neg (not_lt.mpr hx)]

set_option maxRecDepth 20000 in
/-- C1: with 15 prior bars, a valid ATR of 2, a long position entered at 100
and the current bar closing at 96.9, the code computes the stop from the
current close (96.9 − 3 = 93.9, not 100 − 3 = 97) and the exit check does
not fire, although the claim's entry-based stop of 97 would have fired. -/
theorem claim1_atr_stop_ignores_entry :
    calculateAtrStopLoss defCfg dataAtrExit 15 SignalType.buy =
      (some (939/10), some (1019/10)) ∧
    shouldExitPosition defCfg dataAtrExit 15 100 SignalType.buy =
      (false, ExitReason.noExit) ∧
    ¬ ((939 : ℚ)/10 = 100 - 2 * (3/2)) ∧ (969 : ℚ)/10 ≤ 100 - 2 * (3/2) := by
  refine ⟨by with_unfolding_all decide, by with_unfolding_all decide, by norm_num, by norm_num⟩

/-- C7: at a bar where only the RSI sub-signal votes (BUY, confidence 1), the
code's fused confidence is 0.25 — the weight the specification assigns to
MACD — while the claimed weighting (RSI 0.20) would give 0.20: the source
zips the weights dict values against the signal list in mismatched order. -/
theorem claim7_weight_pairing_mismatch :
    generateCompositeSignal defCfg dataRsiOnly 1 =
      ⟨SignalType.buy, some 100, 1/4⟩ ∧
    rsiSignal defCfg dataRsiOnly 1 = (SignalType.buy, 1) ∧
    maCrossoverSignal dataRsiOnly 1 = (SignalType.hold, 0) ∧
    macdCrossSignal dataRsiOnly 1 = (SignalType.hold, 0) ∧
    bollingerSignal dataRsiOnly 1 = (SignalType.hold, 0) ∧
    volumeSignal dataRsiOnly 1 = (SignalType.hold, 0) ∧
    claimWeightedScore SignalType.buy (maCrossoverSignal dataRsiOnly 1)
      (macdCrossSignal dataRsiOnly 1) (rsiSignal defCfg dataRsiOnly 1)
      (bollingerSignal dataRsiOnly 1) (volumeSignal dataRsiOnly 1) = 1/5 ∧
    ¬ ((1 : ℚ)/4 = 1/5) := by
  refine ⟨by with_unfolding_all decide, by with_unfolding_all decide, by with_unfolding_all decide, by with_unfolding_all decide, by with_unfolding_all decide, by with_unfolding_all decide,
    by with_unfolding_all decide, by norm_num⟩

/-- C2 counterexample: a SELL_SHORT order whose covering cost (100.3) exceeds
the available cash (0) is not dropped — the ledger appends a trade record and
changes the state. -/
theorem claim2_counterexample :
    ((calculatePositionSize defCfg zeroCashState shortCmd.price shortCmd.confidence none : ℚ) *
        shortCmd.price * (1 + defCfg.COMMISSION_RATE + defCfg.SLIPPAGE) >
      zeroCashState.availableCash) ∧
    executeTrade defCfg zeroCashState shortCmd none ≠ zeroCashState ∧
    (executeTrade defCfg zeroCashState shortCmd none).tradesHistory.length = 1 := by
  refine ⟨by with_unfolding_all decide, by with_unfolding_all decide, by with_unfolding_all decide⟩

/-- C2 (amended): a BUY whose cost exceeds the available cash is dropped
silently — no trade appended, state unchanged — while a SELL_SHORT is never
checked against cash: it always executes and appends its trade record. -/
theorem claim2_buy_rejection_atomic :
    (∀ (cfg : Config) (s : EngineState) (cmd : TradeCmd) (atr : Option ℚ),
      cmd.action = Action.buy →
      (calculatePositionSize cfg s cmd.price cmd.confidence atr : ℚ) * cmd.price *
          (1 + cfg.COMMISSION_RATE + cfg.SLIPPAGE) > s.availableCash →
      executeTrade cfg s cmd atr = s) ∧
    (∀ (cfg : Config) (s : EngineState) (cmd : TradeCmd) (atr : Option ℚ),
      cmd.action = Action.sellShort →
      (executeTrade cfg s cmd atr).tradesHistory.length =
        s.tradesHistory.length + 1) := by
  constructor
  · intro cfg s cmd atr hA hCost
    obtain ⟨ts, act, price, qty, conf⟩ := cmd
    simp only at hA
    subst hA
    simp only [executeTrade] at hCost ⊢
    rw [if_neg (not_le.mpr hCost)]
  · intro cfg s cmd atr hA
    obtain ⟨ts, act, price, qty, conf⟩ := cmd
    simp only at hA
    subst hA
    simp [executeTrade]

/-- C2 witness: the BUY rejection applied at a concrete state with cash 5. -/
theorem claim2_buy_rejection_witness :
    executeTrade defCfg { zeroCashState with availableCash := 5 }
        ⟨0, Action.buy, 100, 1, 1⟩ none =
      { zeroCashState with availableCash := 5 } ∧
    (executeTrade defCfg zeroCashState shortCmd none).tradesHistory.length =
      zeroCashState.tradesHistory.length + 1 :=
  ⟨claim2_buy_rejection_atomic.1 defCfg _ _ none rfl (by with_unfolding_all decide),
   claim2_buy_rejection_atomic.2 defCfg _ _ none rfl⟩

/-- C5: a SELL executed on a long position that brings the quantity exactly
to 0 resets the entry price to 0 and the entry time to none, and a
BUY_TO_COVER that flattens a short position does the same. -/
theorem claim5_entry_reset_on_flat :
    ∀ (cfg : Config) (s : EngineState) (cmd : TradeCmd) (atr : Option ℚ),
      ((cmd.action = Action.sell ∧ 0 < s.currentPosition) ∨
       (cmd.action = Action.buyToCover ∧ s.currentPosition < 0)) →
      (executeTrade cfg s cmd atr).currentPosition = 0 →
      (executeTrade cfg s cmd atr).entryPrice = 0 ∧
      (executeTrade cfg s cmd atr).entryTime = none := by
  intro cfg s cmd atr hcase hflat
  obtain ⟨ts, act, price, qty, conf⟩ := cmd
  rcases hcase with ⟨hA, hpos⟩ | ⟨hA, hpos⟩ <;> simp only at hA <;> subst hA <;>
    simp only [executeTrade] at hflat ⊢ <;>
    split at hflat <;> simp_all <;> omega

/-- C5 witness: selling the full long quantity of `longState` flattens it and
clears the entry fields. -/
theorem claim5_entry_reset_witness :
    (executeTrade defCfg longState ⟨1, Action.sell, 100, 10, 1⟩ none).entryPrice = 0 ∧
    (executeTrade defCfg longState ⟨1, Action.sell, 100, 10, 1⟩ none).entryTime = none :=
  claim5_entry_reset_on_flat defCfg longState ⟨1, Action.sell, 100, 10, 1⟩ none
    (Or.inl ⟨rfl, by with_unfolding_all decide⟩) (by with_unfolding_all decide)

/-- C6: a SELL executes exactly min(requested, long quantity) and never
drives a nonnegative position negative; a BUY_TO_COVER executes exactly
min(requested, short magnitude) and never drives a nonpositive position
positive. -/
theorem claim6_quantity_clamped :
    ∀ (cfg : Config) (s : EngineState) (cmd : TradeCmd) (atr : Option ℚ),
      (cmd.action = Action.sell → 0 < min cmd.quantity s.currentPosition →
        (executeTrade cfg s cmd atr).tradesHistory.map TradeRecord.quantity =
          s.tradesHistory.map TradeRecord.quantity ++
            [min cmd.quantity s.currentPosition]) ∧
      (cmd.action = Action.sell → 0 ≤ s.currentPosition →
        0 ≤ (executeTrade cfg s cmd atr).currentPosition) ∧
      (cmd.action = Action.buyToCover → 0 < min cmd.quantity |s.currentPosition| →
        (executeTrade cfg s cmd atr).tradesHistory.map TradeRecord.quantity =
          s.tradesHistory.map TradeRecord.quantity ++
            [min cmd.quantity |s.currentPosition|]) ∧
      (cmd.action = Action.buyToCover → s.currentPosition ≤ 0 →
        (executeTrade cfg s cmd atr).currentPosition ≤ 0) := by
  intro cfg s cmd atr
  obtain ⟨ts, act, price, qty, conf⟩ := cmd
  refine ⟨?_, ?_, ?_, ?_⟩ <;> intro hA h <;> simp only at hA <;> subst hA <;>
    simp only [executeTrade]
  · rw [if_pos h]
    simp
  · split <;> simp_all <;> omega
  · rw [if_pos h]
    simp
  · rw [abs_of_nonpos h]
    split <;> simp_all <;> omega

/-- C3: the risk-sizing quantity is the floor of available cash times the
final fraction over the unit cost including commission and slippage, where
the final fraction caps the confidence-weighted fraction by the ATR risk
fraction exactly when a positive ATR is available; the result is floored at
one unit, hence never zero. -/
theorem claim3_position_size_formula :
    ∀ (cfg : Config) (s : EngineState) (price confidence : ℚ) (atr : Option ℚ),
      0 < price → 0 < s.availableCash → 0 ≤ s.currentCapital →
      0 ≤ confidence → 0 ≤ cfg.POSITION_SIZE →
      0 ≤ cfg.COMMISSION_RATE → 0 ≤ cfg.SLIPPAGE →
      calculatePositionSize cfg s price confidence atr =
        max 1 ⌊s.availableCash * specFinalFrac cfg s price confidence atr /
          (price * (1 + cfg.COMMISSION_RATE + cfg.SLIPPAGE))⌋ ∧
      1 ≤ calculatePositionSize cfg s price confidence atr := by
  intro cfg s price confidence atr hp hcash hcap hconf hps hcr hsl
  have hfrac : 0 ≤ specFinalFrac cfg s price confidence atr := by
    unfold specFinalFrac
    rcases atr with _ | a
    · exact mul_nonneg hps hconf
    · dsimp only
      split_ifs with ha
      · refine le_min (mul_nonneg hps hconf) ?_
        have h32 : (0 : ℚ) ≤ (3/2) * a * price :=
          mul_nonneg (mul_nonneg (by norm_num) ha.le) hp.le
        exact div_nonneg
          (mul_nonneg (div_nonneg (mul_nonneg hcap (by norm_num)) h32) hp.le)
          hcash.le
      · exact mul_nonneg hps hconf
  have hdenom : (0 : ℚ) < price * (1 + cfg.COMMISSION_RATE + cfg.SLIPPAGE) :=
    mul_pos hp (by linarith)
  have harg : 0 ≤ s.availableCash * specFinalFrac cfg s price confidence atr /
      (price * (1 + cfg.COMMISSION_RATE + cfg.SLIPPAGE)) :=
    div_nonneg (mul_nonneg hcash.le hfrac) hdenom.le
  have hcode : calculatePositionSize cfg s price confidence atr =
      max 1 (pyInt (s.availableCash * specFinalFrac cfg s price confidence atr /
        (price * (1 + cfg.COMMISSION_RATE + cfg.SLIPPAGE)))) := rfl
  exact ⟨by rw [hcode, pyInt_eq_floor _ harg], by rw [hcode]; exact le_max_left 1 _⟩

/-- C3 witness: the formula applied at cash 1000, price 100, confidence 0.5
and ATR 2 (where the risk cap binds and the computed quantity is 3). -/
theorem claim3_position_size_witness :
    calculatePositionSize defCfg longState 100 (1/2) (some 2) =
      max 1 ⌊longState.availableCash * specFinalFrac defCfg longState 100 (1/2) (some 2) /
        ((100 : ℚ) * (1 + defCfg.COMMISSION_RATE + defCfg.SLIPPAGE))⌋ ∧
    1 ≤ calculatePositionSize defCfg longState 100 (1/2) (some 2) :=
  claim3_position_size_formula defCfg longState 100 (1/2) (some 2)
    (by norm_num) (by with_unfolding_all decide) (by with_unfolding_all decide)
    (by norm_num) (by with_unfolding_all decide)
    (by with_unfolding_all decide) (by with_unfolding_all decide)

/-- Gross winning P&L: the amounts of the paired round-trips the reducer
counts as winning (P&L ratio positive). -/
def grossWin (trades : List TradeRecord) : ℚ :=
  (((pairTrades trades).filter (fun p => decide (p.2 > 0))).map Prod.fst).sum

/-- Gross losing P&L: the amounts of the paired round-trips the reducer
counts as losing. -/
def grossLoss (trades : List TradeRecord) : ℚ :=
  (((pairTrades trades).filter (fun p => !decide (p.2 > 0))).map Prod.fst).sum

/-- The winning/losing fold of the reducer computes exactly the filtered
gross sums over the P&L pairs. -/
theorem aggregateAmounts_eq (pairs : List (ℚ × ℚ)) :
    aggregateAmounts pairs =
      (((pairs.filter (fun p => decide (p.2 > 0))).map Prod.fst).sum,
       ((pairs.filter (fun p => !decide (p.2 > 0))).map Prod.fst).sum) := by
  have key : ∀ acc : ℚ × ℚ,
      pairs.foldl
        (fun acc p => if p.2 > 0 then (acc.1 + p.1, acc.2) else (acc.1, acc.2 + p.1))
        acc =
      (acc.1 + ((pairs.filter (fun p => decide (p.2 > 0))).map Prod.fst).sum,
       acc.2 + ((pairs.filter (fun p => !decide (p.2 > 0))).map Prod.fst).sum) := by
    induction pairs with
    | nil => intro acc; simp
    | cons p ps ih =>
      intro acc
      by_cases hp : p.2 > 0 <;>
        simp [List.foldl_cons, List.filter_cons, hp, ih, add_assoc]
  simpa [aggregateAmounts] using key (0, 0)

set_option maxRecDepth 20000 in
/-- C9: the reported profit factor is the absolute ratio of gross winning to
gross losing P&L over the paired round-trips, and the infinity sentinel
whenever the losing total is not negative; gross win 300 with gross loss 100
gives exactly 3, and no losses give the sentinel. -/
theorem claim9_profit_factor :
    (∀ trades : List TradeRecord,
      profitFactor trades =
        if grossLoss trades < 0 then
          ProfitFactor.val |grossWin trades / grossLoss trades|
        else ProfitFactor.infSentinel) ∧
    grossWin tradesWinLoss = 300 ∧ grossLoss tradesWinLoss = -100 ∧
    profitFactor tradesWinLoss = ProfitFactor.val 3 ∧
    profitFactor tradesNoLoss = ProfitFactor.infSentinel := by
  refine ⟨?_, by with_unfolding_all decide, by with_unfolding_all decide,
    by with_unfolding_all decide, by with_unfolding_all decide⟩
  intro trades
  unfold profitFactor grossWin grossLoss
  rw [aggregateAmounts_eq]

/-- C10: under the dispatch conditions of the backtest loop — a nonzero
position whose bar signal neither fired the BUY-entry branch nor the
SELL-entry branch — the exit check recomputes the same composite signal and
its reversal branch can never fire: any triggered exit is a stop-loss or a
take-profit verdict. -/
theorem claim10_no_reversal_exit :
    ∀ (cfg : Config) (data : List Bar) (i : ℕ) (pos : ℤ) (entry : ℚ),
      pos ≠ 0 →
      ¬((generateCompositeSignal cfg data i).signalType = SignalType.buy ∧ pos ≤ 0) →
      ¬((generateCompositeSignal cfg data i).signalType = SignalType.sell ∧ 0 ≤ pos) →
      (shouldExitPosition cfg data i entry
          (if 0 < pos then SignalType.buy else SignalType.sell)).2 ≠
        ExitReason.reversal ∧
      ((shouldExitPosition cfg data i entry
          (if 0 < pos then SignalType.buy else SignalType.sell)).1 = true →
        (shouldExitPosition cfg data i entry
            (if 0 < pos then SignalType.buy else SignalType.sell)).2 =
          ExitReason.stopLoss ∨
        (shouldExitPosition cfg data i entry
            (if 0 < pos then SignalType.buy else SignalType.sell)).2 =
          ExitReason.takeProfit) := by
  intro cfg data i pos entry hpos h1 h2
  by_cases hpp : 0 < pos
  · have hsig : ¬ (generateCompositeSignal cfg data i).signalType = SignalType.sell :=
      fun h => h2 ⟨h, hpp.le⟩
    rw [if_pos hpp]
    unfold shouldExitPosition
    dsimp only
    split_ifs <;> simp_all
  · have hsig : ¬ (generateCompositeSignal cfg data i).signalType = SignalType.buy :=
      fun h => h1 ⟨h, by omega⟩
    rw [if_neg hpp]
    unfold shouldExitPosition
    dsimp only
    split_ifs <;> simp_all

set_option maxRecDepth 40000 in
/-- C10 witness: the exit-branch conditions applied at bar 15 of the quiet
data (signal HOLD, position long one unit). -/
theorem claim10_no_reversal_exit_witness :
    (shouldExitPosition defCfg dataAtrExit 15 100
        (if (0 : ℤ) < 1 then SignalType.buy else SignalType.sell)).2 ≠
      ExitReason.reversal ∧
    ((shouldExitPosition defCfg dataAtrExit 15 100
        (if (0 : ℤ) < 1 then SignalType.buy else SignalType.sell)).1 = true →
      (shouldExitPosition defCfg dataAtrExit 15 100
          (if (0 : ℤ) < 1 then SignalType.buy else SignalType.sell)).2 =
        ExitReason.stopLoss ∨
      (shouldExitPosition defCfg dataAtrExit 15 100
          (if (0 : ℤ) < 1 then SignalType.buy else SignalType.sell)).2 =
        ExitReason.takeProfit) :=
  claim10_no_reversal_exit defCfg dataAtrExit 15 1 100 (by decide)
    (by with_unfolding_all decide) (by with_unfolding_all decide)

/-- A HOLD decision of the fusion threshold always carries zero confidence. -/
theorem fuseDecision_hold_conf (bs ss : ℚ) (h : (fuseDecision bs ss).1 = SignalType.hold) :
    (fuseDecision bs ss).2 = 0 := by
  unfold fuseDecision at h ⊢
  split_ifs at h ⊢ <;> simp_all

/-- A HOLD verdict of the fusion step always carries zero confidence. -/
theorem fusedPreFilter_hold_conf (cfg : Config) (data : List Bar) (i : ℕ)
    (h : (fusedPreFilter cfg data i).1 = SignalType.hold) :
    (fusedPreFilter cfg data i).2 = 0 := by
  unfold fusedPreFilter at h ⊢
  exact fuseDecision_hold_conf _ _ h

/-- C8: the trend filter can only force a fused BUY or SELL down to HOLD
with zero confidence, never upgrade or redirect; with the relevant indicator
values present and a nonzero close, a fused BUY survives exactly when fast
MA > slow MA, MACD > 0, the MA gap is at least 0.1% of the close and the
close is at or above the Bollinger mid-band, and a fused SELL survives
exactly under the four mirror conditions. -/
theorem claim8_trend_filter :
    ∀ (cfg : Config) (data : List Bar) (i : ℕ) (bar : Bar) (f sl m c mid : ℚ),
      data[i]? = some bar →
      bar.maFast = some f → bar.maSlow = some sl → bar.macd = some m →
      bar.close = some c → bar.bbMiddle = some mid → c ≠ 0 →
      ((fusedPreFilter cfg data i).1 = SignalType.hold →
        (generateCompositeSignal cfg data i).signalType = SignalType.hold) ∧
      ((generateCompositeSignal cfg data i).signalType ≠ SignalType.hold →
        (generateCompositeSignal cfg data i).signalType = (fusedPreFilter cfg data i).1 ∧
        (generateCompositeSignal cfg data i).confidence = (fusedPreFilter cfg data i).2) ∧
      ((fusedPreFilter cfg data i).1 = SignalType.buy →
        ((generateCompositeSignal cfg data i).signalType = SignalType.buy ↔
          (sl < f ∧ 0 < m ∧ 1/1000 ≤ |f - sl| / c ∧ mid ≤ c))) ∧
      ((fusedPreFilter cfg data i).1 = SignalType.sell →
        ((generateCompositeSignal cfg data i).signalType = SignalType.sell ↔
          (f < sl ∧ m < 0 ∧ 1/1000 ≤ |f - sl| / c ∧ c ≤ mid))) ∧
      ((generateCompositeSignal cfg data i).signalType = SignalType.hold →
        (generateCompositeSignal cfg data i).confidence = 0) := by
  intro cfg data i bar f sl m c mid hd hf hs hm hc hmid hc0
  have hBuy : (buyTrendOk bar = true) ↔
      (sl < f ∧ 0 < m ∧ 1/1000 ≤ |f - sl| / c ∧ mid ≤ c) := by
    unfold buyTrendOk maGapPct
    rw [hf, hs, hm, hc, hmid]
    simp [ogt, oge, hc0, and_assoc]
  have hSell : (sellTrendOk bar = true) ↔
      (f < sl ∧ m < 0 ∧ 1/1000 ≤ |f - sl| / c ∧ c ≤ mid) := by
    unfold sellTrendOk maGapPct
    rw [hf, hs, hm, hc, hmid]
    simp [olt, ole, oge, hc0, and_assoc]
  have hgen : generateCompositeSignal cfg data i =
      (if (fusedPreFilter cfg data i).1 = SignalType.buy ∧ ¬ (buyTrendOk bar = true) then
        (⟨SignalType.hold, bar.close, 0⟩ : CompositeSignal)
      else if (fusedPreFilter cfg data i).1 = SignalType.sell ∧ ¬ (sellTrendOk bar = true) then
        (⟨SignalType.hold, bar.close, 0⟩ : CompositeSignal)
      else ⟨(fusedPreFilter cfg data i).1, bar.close, (fusedPreFilter cfg data i).2⟩) := by
    unfold generateCompositeSignal
    rw [hd]
  rw [hgen]
  split_ifs with h1 h2
  · obtain ⟨hfb, hnok⟩ := h1
    refine ⟨fun _ => rfl, fun hne => absurd rfl hne, ?_, ?_, fun _ => rfl⟩
    · intro _
      constructor
      · intro hco
        exact absurd hco (by simp)
      · intro hplain
        exact absurd (hBuy.mpr hplain) hnok
    · intro hfs
      rw [hfb] at hfs
      exact absurd hfs (by simp)
  · obtain ⟨hfs, hnok⟩ := h2
    refine ⟨fun _ => rfl, fun hne => absurd rfl hne, ?_, ?_, fun _ => rfl⟩
    · intro hfb
      rw [hfs] at hfb
      exact absurd hfb (by simp)
    · intro _
      constructor
      · intro hco
        exact absurd hco (by simp)
      · intro hplain
        exact absurd (hSell.mpr hplain) hnok
  · push_neg at h1 h2
    refine ⟨fun h => h, fun _ => ⟨rfl, rfl⟩, ?_, ?_, ?_⟩
    · intro hfb
      exact iff_of_true hfb (hBuy.mp (h1 hfb))
    · intro hfs
      exact iff_of_true hfs (hSell.mp (h2 hfs))
    · intro hhold
      exact fusedPreFilter_hold_conf cfg data i hhold

set_option maxRecDepth 20000 in
/-- C8 witness: the golden-cross bar satisfying all four BUY conditions is a
final BUY, and the same bar with a negative MACD line is forced to HOLD. -/
theorem claim8_trend_filter_witness :
    (generateCompositeSignal defCfg dataCross 1).signalType = SignalType.buy ∧
    (generateCompositeSignal defCfg dataCrossNegMacd 1).signalType = SignalType.hold := by
  constructor
  · have h := claim8_trend_filter defCfg dataCross 1 crossBar1 102 100 1 100 100
      rfl rfl rfl rfl rfl rfl (by norm_num)
    exact (h.2.2.1 (by with_unfolding_all decide)).mpr (by norm_num)
  · have h := claim8_trend_filter defCfg dataCrossNegMacd 1
      { crossBar1 with macd := some (-1) } 102 100 (-1) 100 100
      rfl rfl rfl rfl rfl rfl (by norm_num)
    rcases h with ⟨h1, h2, h3, h4, h5⟩
    by_contra hne
    have hb := (h2 hne).1
    have hfb : (fusedPreFilter defCfg dataCrossNegMacd 1).1 = SignalType.buy := by
      with_unfolding_all decide
    rw [hfb] at hb
    have hplain := (h3 hfb).mp hb
    norm_num at hplain

/-- Appending one trade record adds its signed delta to the signed sum. -/
theorem signedSum_append_single (ts : List TradeRecord) (r : TradeRecord) :
    signedSum (ts ++ [r]) = signedSum ts + tradeDelta r := by
  simp [signedSum]

/-- One ledger operation keeps the position equal to the signed sum of the
recorded trades. -/
theorem executeTrade_preserves_signedSum (cfg : Config) (s : EngineState)
    (cmd : TradeCmd) (atr : Option ℚ)
    (h : s.currentPosition = signedSum s.tradesHistory) :
    (executeTrade cfg s cmd atr).currentPosition =
      signedSum (executeTrade cfg s cmd atr).tradesHistory := by
  obtain ⟨ts, act, price, qty, conf⟩ := cmd
  cases act <;> simp only [executeTrade] <;>
    first
      | (split <;> simp [signedSum_append_single, tradeDelta, h] <;> omega)
      | (simp [signedSum_append_single, tradeDelta, h] <;> omega)
      | exact h

/-- One bar of signal dispatch keeps the position equal to the signed sum of
the recorded trades. -/
theorem dispatchSignal_preserves_signedSum (cfg : Config) (data : List Bar)
    (i : ℕ) (s : EngineState)
    (h : s.currentPosition = signedSum s.tradesHistory) :
    (dispatchSignal cfg data i s).currentPosition =
      signedSum (dispatchSignal cfg data i s).tradesHistory := by
  unfold dispatchSignal
  cases hd : data[i]? with
  | none => exact h
  | some bar =>
    dsimp only
    split_ifs <;>
      first
        | exact executeTrade_preserves_signedSum _ _ _ _
            (executeTrade_preserves_signedSum _ _ _ _ h)
        | exact executeTrade_preserves_signedSum _ _ _ _ h
        | exact h

/-- C4: at every bar of `run_backtest` the current position quantity equals
the net signed sum of all executed trade quantities recorded so far (BUY and
BUY_TO_COVER add, SELL and SELL_SHORT subtract). -/
theorem claim4_position_matches_signed_sum :
    ∀ (cfg : Config) (data : List Bar) (n : ℕ),
      (runSteps cfg data n).currentPosition =
        signedSum (runSteps cfg data n).tradesHistory := by
  intro cfg data n
  induction n with
  | zero => rfl
  | succ n ih =>
    have h := dispatchSignal_preserves_signedSum cfg data n (runSteps cfg data n) ih
    show (runBar cfg data n (runSteps cfg data n)).currentPosition =
      signedSum (runBar cfg data n (runSteps cfg data n)).tradesHistory
    unfold runBar
    cases hd : data[n]? with
    | none => exact ih
    | some bar => exact h

/-- C6 witness: requesting SELL 50 against a long position of 10 executes
quantity 10, and the position stays nonnegative. -/
theorem claim6_quantity_clamped_witness :
    (executeTrade defCfg longState ⟨1, Action.sell, 100, 50, 1⟩ none).tradesHistory.map
        TradeRecord.quantity = [10] ∧
    0 ≤ (executeTrade defCfg longState ⟨1, Action.sell, 100, 50, 1⟩ none).currentPosition :=
  ⟨(claim6_quantity_clamped defCfg longState ⟨1, Action.sell, 100, 50, 1⟩ none).1
      rfl (by with_unfolding_all decide),
   (claim6_quantity_clamped defCfg longState ⟨1, Action.sell, 100, 50, 1⟩ none).2.1
      rfl (by with_unfolding_all decide)⟩

end HugAI
